import Mathlib

/-!
Verification of the hospital outpatient wait-forecast application
(`hospital_app/app.py`).

The development shallowly embeds the prediction run (lines 79-157 of the
source): the calendar classification, the 21 half-hour slots, the
DataFrame-style feature-vector construction, the three opaque predictors,
the round-and-clamp rule `int(max(0, round(x)))`, and the rolling state
(`lags`, `queue_at_start`).  Predictors are modelled as total functions
from integer vectors to rationals; DataFrames with one row are modelled as
association lists from column names to integer values, with pandas
assignment semantics (assigning to a missing column adds it) and pandas
column-selection semantics (`df[cols]` fails iff some requested column is
missing, and returns values in the order of `cols`).
-/

namespace HospitalApp

/-- One-row DataFrame: ordered association list of column name to value. -/
abbrev Df := List (String × Int)

/-- `int(b)` for a Python boolean. -/
def boolInt (b : Bool) : Int := if b then 1 else 0

/-- Does `s` start with the pattern `p` (character lists)? -/
def startsWithList : List Char → List Char → Bool
  | [], _ => true
  | _ :: _, [] => false
  | p :: ps, c :: cs => (p == c) && startsWithList ps cs

/-- Is `pat` a contiguous sublist of `s`?  (Python `pat in s` on strings.) -/
def hasSubList (pat : List Char) : List Char → Bool
  | [] => pat.isEmpty
  | c :: rest => startsWithList pat (c :: rest) || hasSubList pat rest

/-- Python's substring test `pat in s`. -/
def strContains (s pat : String) : Bool := hasSubList pat.toList s.toList

/-- `pd.DataFrame(0, index=[0], columns=cols)`: every schema column, value 0. -/
def dfInit (cols : List String) : Df := cols.map (fun c => (c, 0))

/-- Column lookup (first occurrence), i.e. reading `df[k]`. -/
def dfGet : Df → String → Option Int
  | [], _ => none
  | (k', v) :: rest, k => if k = k' then some v else dfGet rest k

/-- `k in df.columns`. -/
def hasCol : Df → String → Bool
  | [], _ => false
  | (k', _) :: rest, k => if k = k' then true else hasCol rest k

/-- Overwrite every column named `k` with value `v`, keeping positions. -/
def dfSetGo : Df → String → Int → Df
  | [], _, _ => []
  | (k', v') :: rest, k, v =>
    (if k' = k then (k, v) else (k', v')) :: dfSetGo rest k v

/-- Pandas column assignment `df[k] = v`: overwrite in place when the column
exists, otherwise append a new column at the end. -/
def dfSet (df : Df) (k : String) (v : Int) : Df :=
  if hasCol df k then dfSetGo df k v else df ++ [(k, v)]

/-- Pandas selection `df[cols]`: the values of the requested columns in the
order of `cols`; fails (KeyError) iff a requested column is missing. -/
def dfSelect (df : Df) : List String → Option (List Int)
  | [] => some []
  | c :: rest =>
    match dfGet df c, dfSelect df rest with
    | some v, some vs => some (v :: vs)
    | _, _ => none

/-- Python 3 `round` (round half to even) on the exact rational
`q = q.num / q.den`: with `f = ⌊q⌋`, the quantity `t = 2·(q.num − f·q.den)`
is twice the fractional part scaled by the (positive) denominator, so
`t < q.den` / `q.den < t` discriminate fractional part below / above one
half, and the remaining tie goes to the even neighbour. -/
def pythonRound (q : ℚ) : Int :=
  let f : Int := ⌊q⌋
  let t : Int := 2 * (q.num - f * (q.den : Int))
  if t < (q.den : Int) then f
  else if (q.den : Int) < t then f + 1
  else if f % 2 = 0 then f else f + 1

/-- `int(max(0, round(x)))`: the uniform round-and-clamp rule. -/
def clampRound (q : ℚ) : Int := max 0 (pythonRound q)

/-- The lag column name `f"lag_{(i+1)*30}min"`. -/
def lagCol (i : Nat) : String := "lag_" ++ toString ((i + 1) * 30) ++ "min"

/-- The lag loop: `for i, lag in enumerate(lags): if col in df.columns: df[col] = lag`,
run over the enumerated pairs `(i, lag)`. -/
def applyLags (df : Df) : List (Nat × Int) → Df
  | [] => df
  | (i, lag) :: rest =>
    applyLags (if hasCol df (lagCol i) then dfSet df (lagCol i) lag else df) rest

/-- Construction of `df_count` (source lines 111-123). -/
def buildCountDf (cols : List String) (slot : Nat × Nat) (is_h is_ph : Bool)
    (total : Int) (weather : String) (lags : List Int) : Df :=
  let df := dfInit cols
  let df := dfSet df "hour" (slot.1 : Int)
  let df := dfSet df "minute" (slot.2 : Int)
  let df := dfSet df "is_holiday" (boolInt is_h)
  let df := dfSet df "total_outpatient_count" total
  let df := dfSet df "前日祝日フラグ" (boolInt is_ph)
  let df := dfSet df "雨フラグ" (boolInt (strContains weather "雨"))
  let df := dfSet df "雪フラグ" (boolInt (strContains weather "雪"))
  applyLags df lags.enum

/-- Construction of `df_multi` (source lines 131-140). -/
def buildMultiDf (cols : List String) (slot : Nat × Nat) (reception queue_at_start : Int)
    (is_h is_ph : Bool) (total : Int) (weather : String) : Df :=
  let df := dfInit cols
  let df := dfSet df "hour" (slot.1 : Int)
  let df := dfSet df "minute" (slot.2 : Int)
  let df := dfSet df "reception_count" reception
  let df := dfSet df "queue_at_start_of_slot" queue_at_start
  let df := dfSet df "is_holiday" (boolInt is_h)
  let df := dfSet df "total_outpatient_count" total
  let df := dfSet df "前日祝日フラグ" (boolInt is_ph)
  let df := dfSet df "雨フラグ" (boolInt (strContains weather "雨"))
  let df := dfSet df "雪フラグ" (boolInt (strContains weather "雪"))
  df

/-- Minute-of-day values of `pd.date_range(08:00, 18:00, freq="30min")`:
start 480, end 1080, inclusive of the aligned end point. -/
def slotMinutesList : List Nat :=
  (List.range ((1080 - 480) / 30 + 1)).map (fun i => 480 + 30 * i)

/-- The 21 slot time points as `(hour, minute)` pairs. -/
def timeSlots : List (Nat × Nat) := slotMinutesList.map (fun m => (m / 60, m % 60))

/-- Zero-padded two-digit decimal rendering. -/
def pad2 (n : Nat) : String := if n < 10 then "0" ++ toString n else toString n

/-- `ts.strftime("%H:%M")`. -/
def timeLabel (slot : Nat × Nat) : String := pad2 slot.1 ++ ":" ++ pad2 slot.2

/-- One row of the result table (source lines 147-152). -/
structure SlotResult where
  time_label : String
  reception : Int
  queue_pred : Int
  wait_pred : Int
deriving DecidableEq

instance : Inhabited SlotResult := ⟨⟨"", 0, 0, 0⟩⟩

/-- The inputs of one simulation run: the two schemas, the precomputed daily
context, and the three predictors as opaque scoring functions. -/
structure SimCtx where
  count_cols : List String
  multi_cols : List String
  is_holiday : Bool
  is_prev_holiday : Bool
  total_patients : Int
  weather : String
  count_model : List Int → ℚ
  queue_model : List Int → ℚ
  wait_model : List Int → ℚ

/-- The body of the slot loop (source lines 107-155): build the count vector,
predict and clamp `reception`, build the multi vector from `reception` and the
carried `queue_at_start`, predict and clamp `queue_pred` and `wait_pred`, emit
the row, and return the updated rolling state
`([reception] + lags[:2], queue_pred)`. -/
def simOneSlot (ctx : SimCtx) (slot : Nat × Nat) (lags : List Int)
    (queue_at_start : Int) : Option (SlotResult × List Int × Int) :=
  match dfSelect (buildCountDf ctx.count_cols slot ctx.is_holiday ctx.is_prev_holiday
      ctx.total_patients ctx.weather lags) ctx.count_cols with
  | none => none
  | some vcount =>
    let reception := clampRound (ctx.count_model vcount)
    match dfSelect (buildMultiDf ctx.multi_cols slot reception queue_at_start
        ctx.is_holiday ctx.is_prev_holiday ctx.total_patients ctx.weather) ctx.multi_cols with
    | none => none
    | some vmulti =>
      let queue_pred := clampRound (ctx.queue_model vmulti)
      let wait_pred := clampRound (ctx.wait_model vmulti)
      some (⟨timeLabel slot, reception, queue_pred, wait_pred⟩,
        reception :: lags.take 2, queue_pred)

/-- The slot loop over a list of slots, threading the rolling state. -/
def simRun (ctx : SimCtx) : List (Nat × Nat) → List Int → Int →
    Option (List SlotResult)
  | [], _, _ => some []
  | s :: rest, lags, q =>
    match simOneSlot ctx s lags q with
    | none => none
    | some out =>
      match simRun ctx rest out.2.1 out.2.2 with
      | none => none
      | some rs => some (out.1 :: rs)

/-- The whole prediction run: 21 slots, initial state `lags = [0,0,0]`,
`queue_at_start = 0`. -/
def simulate (ctx : SimCtx) : Option (List SlotResult) :=
  simRun ctx timeSlots [0, 0, 0] 0

/-- A calendar date as the classification logic consumes it: month, day and
Python weekday (`Monday = 0 .. Sunday = 6`). -/
structure PyDate where
  month : Nat
  day : Nat
  weekday : Fin 7

/-- The non-working-day classification (source lines 82-87 and 90-95), over an
external public-holiday table `publicHoliday`. -/
def isNonWorkingDay (publicHoliday : PyDate → Bool) (d : PyDate) : Bool :=
  publicHoliday d || decide (5 ≤ d.weekday.val) ||
    (decide (d.month = 12) && decide (29 ≤ d.day)) ||
    (decide (d.month = 1) && decide (d.day ≤ 3))

/-- The six weather values offered by the selector (source line 71). -/
inductive Weather where
  | hare | kumori | ame | yuki | kaisei | usugumori
deriving DecidableEq

/-- The string of each weather value: 晴, 曇, 雨, 雪, 快晴, 薄曇. -/
def weatherStr : Weather → String
  | .hare => "晴"
  | .kumori => "曇"
  | .ame => "雨"
  | .yuki => "雪"
  | .kaisei => "快晴"
  | .usugumori => "薄曇"

/-- The column names the count builder assigns (unconditionally, plus the lag
columns for the indices of `lags`). -/
def countAssignedCols (lags : List Int) : List String :=
  ["hour", "minute", "is_holiday", "total_outpatient_count",
   "前日祝日フラグ", "雨フラグ", "雪フラグ"] ++ lags.enum.map (fun p => lagCol p.1)

/-- The column names the multi builder assigns. -/
def multiAssignedCols : List String :=
  ["hour", "minute", "reception_count", "queue_at_start_of_slot", "is_holiday",
   "total_outpatient_count", "前日祝日フラグ", "雨フラグ", "雪フラグ"]

/-- The fields of a row that feed forward into later slots (everything except
the wait-time prediction). -/
def slotProj (r : SlotResult) : String × Int × Int :=
  (r.time_label, r.reception, r.queue_pred)

/-- A concrete run input used to exercise the theorems on closed terms:
empty schemas and constant predictors returning −12/5, 38/5 and 0. -/
def ctxA : SimCtx :=
  { count_cols := [], multi_cols := [], is_holiday := false, is_prev_holiday := false,
    total_patients := 1200, weather := "晴",
    count_model := fun _ => mkRat (-12) 5, queue_model := fun _ => mkRat 38 5,
    wait_model := fun _ => 0 }

/-- The same run input with a syntactically different but extensionally equal
wait-time predictor. -/
def ctxB : SimCtx := { ctxA with wait_model := fun _ => 0 + 0 }


/-! ### DataFrame lemmas -/

lemma dfGet_dfSetGo_self (df : Df) (k : String) (v : Int) (h : hasCol df k = true) :
    dfGet (dfSetGo df k v) k = some v := by
  induction df with
  | nil => simp [hasCol] at h
  | cons p rest ih =>
    obtain ⟨k', v'⟩ := p
    by_cases hk : k' = k
    · simp only [dfSetGo, if_pos hk]
      simp [dfGet]
    · have hk' : ¬(k = k') := fun hh => hk hh.symm
      simp only [hasCol, if_neg hk'] at h
      simp only [dfSetGo, if_neg hk]
      simpa [dfGet, hk'] using ih h

lemma dfGet_dfSetGo_ne (df : Df) (k : String) (v : Int) (c : String) (h : c ≠ k) :
    dfGet (dfSetGo df k v) c = dfGet df c := by
  induction df with
  | nil => simp [dfSetGo]
  | cons p rest ih =>
    obtain ⟨k', v'⟩ := p
    by_cases hk : k' = k
    · subst hk
      simp only [dfSetGo, if_pos rfl]
      simp [dfGet, h, ih]
    · simp only [dfSetGo, if_neg hk]
      by_cases hc : c = k'
      · simp [dfGet, hc]
      · simp [dfGet, hc, ih]

lemma dfGet_append_self (df : Df) (k : String) (v : Int) (h : hasCol df k = false) :
    dfGet (df ++ [(k, v)]) k = some v := by
  induction df with
  | nil => simp [dfGet]
  | cons p rest ih =>
    obtain ⟨k', v'⟩ := p
    by_cases hk : k = k'
    · simp [hasCol, hk] at h
    · simp only [hasCol, if_neg hk] at h
      simpa [dfGet, hk] using ih h

lemma dfGet_append_ne (df : Df) (k : String) (v : Int) (c : String) (h : c ≠ k) :
    dfGet (df ++ [(k, v)]) c = dfGet df c := by
  induction df with
  | nil => simp [dfGet, h]
  | cons p rest ih =>
    obtain ⟨k', v'⟩ := p
    by_cases hc : c = k'
    · simp [dfGet, hc]
    · simp [dfGet, hc, ih]

/-- Reading back the column just assigned gives the assigned value; every other
column is untouched. -/
lemma dfGet_dfSet (df : Df) (k : String) (v : Int) (c : String) :
    dfGet (dfSet df k v) c = if c = k then some v else dfGet df c := by
  unfold dfSet
  by_cases hc : c = k
  · subst hc
    split
    · next h => simp [dfGet_dfSetGo_self df c v h]
    · next h =>
      simp only [Bool.not_eq_true] at h
      simp [dfGet_append_self df c v h]
  · split
    · simp [hc, dfGet_dfSetGo_ne df k v c hc]
    · simp [hc, dfGet_append_ne df k v c hc]

lemma dfGet_dfSet_isSome (df : Df) (k : String) (v : Int) (c : String)
    (h : (dfGet df c).isSome = true) : (dfGet (dfSet df k v) c).isSome = true := by
  rw [dfGet_dfSet]
  by_cases hc : c = k <;> simp [hc, h]

lemma dfGet_dfInit (cols : List String) (c : String) (h : c ∈ cols) :
    dfGet (dfInit cols) c = some 0 := by
  induction cols with
  | nil => simp at h
  | cons a rest ih =>
    by_cases hc : c = a
    · simp [dfInit, dfGet, hc]
    · have : c ∈ rest := by
        rcases List.mem_cons.1 h with h' | h'
        · exact absurd h' hc
        · exact h'
      simpa [dfInit, dfGet, hc] using ih this

lemma dfGet_applyLags_isSome (ps : List (Nat × Int)) (df : Df) (c : String)
    (h : (dfGet df c).isSome = true) :
    (dfGet (applyLags df ps) c).isSome = true := by
  induction ps generalizing df with
  | nil => simpa [applyLags] using h
  | cons p rest ih =>
    obtain ⟨i, lag⟩ := p
    simp only [applyLags]
    apply ih
    split
    · exact dfGet_dfSet_isSome _ _ _ _ h
    · exact h

lemma dfGet_applyLags_ne (ps : List (Nat × Int)) (df : Df) (c : String)
    (h : ∀ p ∈ ps, lagCol p.1 ≠ c) :
    dfGet (applyLags df ps) c = dfGet df c := by
  induction ps generalizing df with
  | nil => simp [applyLags]
  | cons p rest ih =>
    obtain ⟨i, lag⟩ := p
    simp only [applyLags]
    rw [ih _ (fun p hp => h p (List.mem_cons_of_mem _ hp))]
    split
    · rw [dfGet_dfSet]
      have : c ≠ lagCol i := fun hc => (h (i, lag) (List.mem_cons_self _ _)) hc.symm
      simp [this]
    · rfl

lemma dfSelect_isSome (cols : List String) (df : Df)
    (h : ∀ c ∈ cols, (dfGet df c).isSome = true) :
    (dfSelect df cols).isSome = true := by
  induction cols with
  | nil => simp [dfSelect]
  | cons c rest ih =>
    have hc := h c (List.mem_cons_self _ _)
    obtain ⟨v, hv⟩ := Option.isSome_iff_exists.1 hc
    have hrest := ih (fun c' hc' => h c' (List.mem_cons_of_mem _ hc'))
    obtain ⟨vs, hvs⟩ := Option.isSome_iff_exists.1 hrest
    simp [dfSelect, hv, hvs]

/-- Selection returns one value per requested column, in the order of the
request: position `i` of the output is the value of the column named at
position `i` of `cols`. -/
lemma dfSelect_spec (cols : List String) :
    ∀ (df : Df) (v : List Int), dfSelect df cols = some v →
      v.length = cols.length ∧
      ∀ (i : Nat) (h : i < cols.length) (h' : i < v.length),
        dfGet df (cols.get ⟨i, h⟩) = some (v.get ⟨i, h'⟩) := by
  induction cols with
  | nil =>
    intro df v hv
    simp [dfSelect] at hv
    subst hv
    exact ⟨rfl, fun i h _ => absurd h (by simp)⟩
  | cons c rest ih =>
    intro df v hv
    simp only [dfSelect] at hv
    cases hg : dfGet df c with
    | none => rw [hg] at hv; cases hvs : dfSelect df rest <;> rw [hvs] at hv <;> simp at hv
    | some b =>
      rw [hg] at hv
      cases hvs : dfSelect df rest with
      | none => rw [hvs] at hv; simp at hv
      | some bs =>
        rw [hvs] at hv
        simp at hv
        subst hv
        obtain ⟨hlen, hidx⟩ := ih df bs hvs
        refine ⟨by simp [hlen], ?_⟩
        intro i h h'
        cases i with
        | zero => simpa using hg
        | succ j =>
          have hj : j < rest.length := by simpa using h
          have hj' : j < bs.length := by simpa using h'
          simpa using hidx j hj hj'



/-! ### Builder lemmas -/

lemma lagCol_data_head (i : Nat) : (lagCol i).data.head? = some 'l' := rfl

/-- A lag column name never coincides with one of the statically named feature
columns (those never start with the character `l`). -/
lemma lagCol_ne (i : Nat) (c : String) (hc : c.data.head? ≠ some 'l') : lagCol i ≠ c := by
  intro h
  exact hc (h ▸ lagCol_data_head i)

lemma clampRound_nonneg (q : ℚ) : 0 ≤ clampRound q := le_max_left _ _

/-- The rain flag stored in `df_count` is the substring test on the weather. -/
lemma buildCountDf_rain (cols : List String) (slot : Nat × Nat) (ih iph : Bool)
    (tot : Int) (w : String) (lags : List Int) :
    dfGet (buildCountDf cols slot ih iph tot w lags) "雨フラグ" =
      some (boolInt (strContains w "雨")) := by
  unfold buildCountDf
  rw [dfGet_applyLags_ne _ _ _ (fun p _ => lagCol_ne p.1 _ (by decide))]
  simp [dfGet_dfSet]

/-- The snow flag stored in `df_count` is the substring test on the weather. -/
lemma buildCountDf_snow (cols : List String) (slot : Nat × Nat) (ih iph : Bool)
    (tot : Int) (w : String) (lags : List Int) :
    dfGet (buildCountDf cols slot ih iph tot w lags) "雪フラグ" =
      some (boolInt (strContains w "雪")) := by
  unfold buildCountDf
  rw [dfGet_applyLags_ne _ _ _ (fun p _ => lagCol_ne p.1 _ (by decide))]
  simp [dfGet_dfSet]

/-- `df_multi["queue_at_start_of_slot"]` is exactly the carried queue value. -/
lemma buildMultiDf_queue (cols : List String) (slot : Nat × Nat)
    (reception q : Int) (ih iph : Bool) (tot : Int) (w : String) :
    dfGet (buildMultiDf cols slot reception q ih iph tot w) "queue_at_start_of_slot" =
      some q := by
  simp [buildMultiDf, dfGet_dfSet]

/-- `df_multi["reception_count"]` is exactly this slot's clamped arrival count. -/
lemma buildMultiDf_reception (cols : List String) (slot : Nat × Nat)
    (reception q : Int) (ih iph : Bool) (tot : Int) (w : String) :
    dfGet (buildMultiDf cols slot reception q ih iph tot w) "reception_count" =
      some reception := by
  simp [buildMultiDf, dfGet_dfSet]

lemma buildMultiDf_rain (cols : List String) (slot : Nat × Nat)
    (reception q : Int) (ih iph : Bool) (tot : Int) (w : String) :
    dfGet (buildMultiDf cols slot reception q ih iph tot w) "雨フラグ" =
      some (boolInt (strContains w "雨")) := by
  simp [buildMultiDf, dfGet_dfSet]

lemma buildMultiDf_snow (cols : List String) (slot : Nat × Nat)
    (reception q : Int) (ih iph : Bool) (tot : Int) (w : String) :
    dfGet (buildMultiDf cols slot reception q ih iph tot w) "雪フラグ" =
      some (boolInt (strContains w "雪")) := by
  simp [buildMultiDf, dfGet_dfSet]

/-- Every schema column is present in the built `df_count`. -/
lemma buildCountDf_get_isSome (cols : List String) (slot : Nat × Nat) (ih iph : Bool)
    (tot : Int) (w : String) (lags : List Int) (c : String) (hc : c ∈ cols) :
    (dfGet (buildCountDf cols slot ih iph tot w lags) c).isSome = true := by
  unfold buildCountDf
  apply dfGet_applyLags_isSome
  iterate 7 apply dfGet_dfSet_isSome
  simp [dfGet_dfInit cols c hc]

lemma buildMultiDf_get_isSome (cols : List String) (slot : Nat × Nat)
    (reception q : Int) (ih iph : Bool) (tot : Int) (w : String) (c : String)
    (hc : c ∈ cols) :
    (dfGet (buildMultiDf cols slot reception q ih iph tot w) c).isSome = true := by
  unfold buildMultiDf
  iterate 9 apply dfGet_dfSet_isSome
  simp [dfGet_dfInit cols c hc]

/-- Selecting the schema from the built `df_count` never fails. -/
lemma buildCountDf_select_isSome (cols : List String) (slot : Nat × Nat) (ih iph : Bool)
    (tot : Int) (w : String) (lags : List Int) :
    (dfSelect (buildCountDf cols slot ih iph tot w lags) cols).isSome = true :=
  dfSelect_isSome _ _ (fun c hc => buildCountDf_get_isSome cols slot ih iph tot w lags c hc)

lemma buildMultiDf_select_isSome (cols : List String) (slot : Nat × Nat)
    (reception q : Int) (ih iph : Bool) (tot : Int) (w : String) :
    (dfSelect (buildMultiDf cols slot reception q ih iph tot w) cols).isSome = true :=
  dfSelect_isSome _ _ (fun c hc => buildMultiDf_get_isSome cols slot reception q ih iph tot w c hc)

/-- A schema column the count builder never assigns keeps its initial 0. -/
lemma buildCountDf_unassigned (cols : List String) (slot : Nat × Nat) (ih iph : Bool)
    (tot : Int) (w : String) (lags : List Int) (c : String) (hc : c ∈ cols)
    (hn : c ∉ countAssignedCols lags) :
    dfGet (buildCountDf cols slot ih iph tot w lags) c = some 0 := by
  simp only [countAssignedCols, List.mem_append, List.mem_map, List.mem_cons,
    List.not_mem_nil, or_false, not_or, not_exists, not_and] at hn
  obtain ⟨⟨h1, h2, h3, h4, h5, h6, h7⟩, h8⟩ := hn
  unfold buildCountDf
  rw [dfGet_applyLags_ne _ _ _ (fun p hp => fun he => h8 p hp he)]
  simp only [dfGet_dfSet, if_neg h1, if_neg h2, if_neg h3, if_neg h4, if_neg h5,
    if_neg h6, if_neg h7]
  exact dfGet_dfInit cols c hc

/-- A schema column the multi builder never assigns keeps its initial 0. -/
lemma buildMultiDf_unassigned (cols : List String) (slot : Nat × Nat)
    (reception q : Int) (ih iph : Bool) (tot : Int) (w : String) (c : String)
    (hc : c ∈ cols) (hn : c ∉ multiAssignedCols) :
    dfGet (buildMultiDf cols slot reception q ih iph tot w) c = some 0 := by
  simp only [multiAssignedCols, List.mem_cons, List.not_mem_nil, or_false, not_or] at hn
  obtain ⟨h1, h2, h3, h4, h5, h6, h7, h8, h9⟩ := hn
  unfold buildMultiDf
  simp only [dfGet_dfSet, if_neg h1, if_neg h2, if_neg h3, if_neg h4, if_neg h5,
    if_neg h6, if_neg h7, if_neg h8, if_neg h9]
  exact dfGet_dfInit cols c hc



/-! ### Simulator lemmas -/

/-- Everything one loop iteration guarantees: the emitted label, the clamped
non-negative outputs, the exact state update `([reception] + lags[:2],
queue_pred)`, and the fact that each output is the round-and-clamp of the raw
prediction on the schema-ordered vector. -/
lemma simOneSlot_spec (ctx : SimCtx) (slot : Nat × Nat) (lags : List Int) (q : Int)
    (out : SlotResult × List Int × Int) (h : simOneSlot ctx slot lags q = some out) :
    out.1.time_label = timeLabel slot ∧
    out.2.1 = out.1.reception :: lags.take 2 ∧
    out.2.2 = out.1.queue_pred ∧
    0 ≤ out.1.reception ∧ 0 ≤ out.1.queue_pred ∧ 0 ≤ out.1.wait_pred ∧
    ∃ vc, dfSelect (buildCountDf ctx.count_cols slot ctx.is_holiday ctx.is_prev_holiday
        ctx.total_patients ctx.weather lags) ctx.count_cols = some vc ∧
      out.1.reception = clampRound (ctx.count_model vc) ∧
      ∃ vm, dfSelect (buildMultiDf ctx.multi_cols slot (clampRound (ctx.count_model vc)) q
          ctx.is_holiday ctx.is_prev_holiday ctx.total_patients ctx.weather) ctx.multi_cols
          = some vm ∧
        out.1.queue_pred = clampRound (ctx.queue_model vm) ∧
        out.1.wait_pred = clampRound (ctx.wait_model vm) := by
  unfold simOneSlot at h
  cases hvc : dfSelect (buildCountDf ctx.count_cols slot ctx.is_holiday ctx.is_prev_holiday
      ctx.total_patients ctx.weather lags) ctx.count_cols with
  | none => rw [hvc] at h; simp at h
  | some vc =>
    rw [hvc] at h
    simp only at h
    cases hvm : dfSelect (buildMultiDf ctx.multi_cols slot (clampRound (ctx.count_model vc)) q
        ctx.is_holiday ctx.is_prev_holiday ctx.total_patients ctx.weather) ctx.multi_cols with
    | none => rw [hvm] at h; simp at h
    | some vm =>
      rw [hvm] at h
      simp only [Option.some.injEq] at h
      subst h
      exact ⟨rfl, rfl, rfl, clampRound_nonneg _, clampRound_nonneg _, clampRound_nonneg _,
        vc, rfl, rfl, vm, hvm, rfl, rfl⟩

/-- Unfolding one iteration of the loop: the remaining run resumes from the
state `([r.reception] + lags[:2], r.queue_pred)` produced by the head slot. -/
lemma simRun_cons_spec (ctx : SimCtx) (s : Nat × Nat) (rest : List (Nat × Nat))
    (lags : List Int) (q : Int) (r : SlotResult) (rest' : List SlotResult)
    (h : simRun ctx (s :: rest) lags q = some (r :: rest')) :
    simOneSlot ctx s lags q = some (r, r.reception :: lags.take 2, r.queue_pred) ∧
    simRun ctx rest (r.reception :: lags.take 2) r.queue_pred = some rest' := by
  unfold simRun at h
  cases ho : simOneSlot ctx s lags q with
  | none => rw [ho] at h; simp at h
  | some out =>
    rw [ho] at h
    simp only at h
    cases hr : simRun ctx rest out.2.1 out.2.2 with
    | none => rw [hr] at h; simp at h
    | some rs =>
      rw [hr] at h
      simp only [Option.some.injEq, List.cons.injEq] at h
      obtain ⟨h1, h2⟩ := h
      obtain ⟨-, hst, hq, -⟩ := simOneSlot_spec ctx s lags q out ho
      subst h2
      have : out = (r, r.reception :: lags.take 2, r.queue_pred) := by
        obtain ⟨r0, st⟩ := out
        simp only at h1 hst hq
        subst h1
        obtain ⟨l0, q0⟩ := st
        simp only at hst hq
        subst hst; subst hq
        rfl
      refine ⟨?_, ?_⟩
      · rw [this]
      · rw [this] at hr; exact hr

/-- The emitted labels are the slot labels, in order. -/
lemma simRun_labels (ctx : SimCtx) :
    ∀ (slots : List (Nat × Nat)) (lags : List Int) (q : Int) (report : List SlotResult),
      simRun ctx slots lags q = some report →
      report.map (fun r => r.time_label) = slots.map timeLabel := by
  intro slots
  induction slots with
  | nil => intro lags q report h; simp only [simRun, Option.some.injEq] at h; subst h; rfl
  | cons s rest ihs =>
    intro lags q report h
    unfold simRun at h
    cases ho : simOneSlot ctx s lags q with
    | none => rw [ho] at h; simp at h
    | some out =>
      rw [ho] at h
      simp only at h
      cases hr : simRun ctx rest out.2.1 out.2.2 with
      | none => rw [hr] at h; simp at h
      | some rs =>
        rw [hr] at h
        simp only [Option.some.injEq] at h
        subst h
        obtain ⟨hlab, -⟩ := simOneSlot_spec ctx s lags q out ho
        simp [hlab, ihs _ _ _ hr]

/-- Every row of a run satisfies the non-negativity clamp. -/
lemma simRun_mem_nonneg (ctx : SimCtx) :
    ∀ (slots : List (Nat × Nat)) (lags : List Int) (q : Int) (report : List SlotResult),
      simRun ctx slots lags q = some report →
      ∀ r ∈ report, 0 ≤ r.reception ∧ 0 ≤ r.queue_pred ∧ 0 ≤ r.wait_pred := by
  intro slots
  induction slots with
  | nil =>
    intro lags q report h
    simp only [simRun, Option.some.injEq] at h
    subst h
    intro r hr
    simp at hr
  | cons s rest ihs =>
    intro lags q report h
    unfold simRun at h
    cases ho : simOneSlot ctx s lags q with
    | none => rw [ho] at h; simp at h
    | some out =>
      rw [ho] at h
      simp only at h
      cases hr : simRun ctx rest out.2.1 out.2.2 with
      | none => rw [hr] at h; simp at h
      | some rs =>
        rw [hr] at h
        simp only [Option.some.injEq] at h
        subst h
        intro r hmem
        rcases List.mem_cons.1 hmem with he | ht
        · obtain ⟨-, -, -, h4, h5, h6, -⟩ := simOneSlot_spec ctx s lags q out ho
          subst he
          exact ⟨h4, h5, h6⟩
        · exact ihs _ _ _ hr r ht



/-! ### Characterisation of the rounding rule -/

lemma rat_num_eq_mul_den (q : ℚ) : (q.num : ℚ) = q * (q.den : ℚ) := by
  have hd : ((q.den : ℚ)) ≠ 0 := by
    exact_mod_cast q.den_nz
  field_simp [Rat.num_div_den q]

lemma pythonRound_t_cast (q : ℚ) :
    ((2 * (q.num - ⌊q⌋ * (q.den : Int)) : Int) : ℚ) =
      2 * (q - (⌊q⌋ : ℚ)) * (q.den : ℚ) := by
  push_cast
  rw [rat_num_eq_mul_den q]
  ring

/-- When the fractional part is below one half, Python rounds down. -/
lemma pythonRound_frac_lt (q : ℚ) (h : 2 * (q - (⌊q⌋ : ℚ)) < 1) :
    pythonRound q = ⌊q⌋ := by
  have hden : (0 : ℚ) < (q.den : ℚ) := by exact_mod_cast q.pos
  have key : ((2 * (q.num - ⌊q⌋ * (q.den : Int)) : Int) : ℚ) < ((q.den : Int) : ℚ) := by
    rw [pythonRound_t_cast q]
    calc 2 * (q - (⌊q⌋ : ℚ)) * (q.den : ℚ) < 1 * (q.den : ℚ) :=
          mul_lt_mul_of_pos_right h hden
      _ = ((q.den : Int) : ℚ) := by push_cast; ring
  have hlt : 2 * (q.num - ⌊q⌋ * (q.den : Int)) < (q.den : Int) := by exact_mod_cast key
  simp only [pythonRound]
  rw [if_pos hlt]

/-- When the fractional part is above one half, Python rounds up. -/
lemma pythonRound_frac_gt (q : ℚ) (h : 1 < 2 * (q - (⌊q⌋ : ℚ))) :
    pythonRound q = ⌊q⌋ + 1 := by
  have hden : (0 : ℚ) < (q.den : ℚ) := by exact_mod_cast q.pos
  have key : ((q.den : Int) : ℚ) < ((2 * (q.num - ⌊q⌋ * (q.den : Int)) : Int) : ℚ) := by
    rw [pythonRound_t_cast q]
    calc ((q.den : Int) : ℚ) = 1 * (q.den : ℚ) := by push_cast; ring
      _ < 2 * (q - (⌊q⌋ : ℚ)) * (q.den : ℚ) := mul_lt_mul_of_pos_right h hden
  have hgt : (q.den : Int) < 2 * (q.num - ⌊q⌋ * (q.den : Int)) := by exact_mod_cast key
  simp only [pythonRound]
  rw [if_neg (not_lt.2 (le_of_lt hgt)), if_pos hgt]

/-- The spec's first example: a raw prediction of −2.4 is emitted as 0. -/
lemma clampRound_neg_example : clampRound (-2.4) = 0 := by
  have hf : ⌊(-2.4 : ℚ)⌋ = -3 := by
    rw [Int.floor_eq_iff]
    norm_num
  have := pythonRound_frac_gt (-2.4) (by rw [hf]; norm_num)
  rw [hf] at this
  simp only [clampRound, this]
  norm_num

/-- The spec's second example: a raw prediction of 7.6 is emitted as 8. -/
lemma clampRound_pos_example : clampRound (7.6) = 8 := by
  have hf : ⌊(7.6 : ℚ)⌋ = 7 := by
    rw [Int.floor_eq_iff]
    norm_num
  have := pythonRound_frac_gt (7.6) (by rw [hf]; norm_num)
  rw [hf] at this
  simp only [clampRound, this]
  norm_num



/-! ### Run-level congruence and non-interference helpers -/

attribute [ext] SimCtx

/-- One loop iteration, projected on everything except the wait-time output,
does not depend on the wait-time predictor. -/
lemma simOneSlot_wait_swap (ctx : SimCtx) (w₁ w₂ : List Int → ℚ) (slot : Nat × Nat)
    (lags : List Int) (q : Int) :
    Option.map (fun out => (slotProj out.1, out.2))
        (simOneSlot { ctx with wait_model := w₁ } slot lags q) =
      Option.map (fun out => (slotProj out.1, out.2))
        (simOneSlot { ctx with wait_model := w₂ } slot lags q) := by
  obtain ⟨cc, mc, ih, iph, tot, w, cm, qm, wm⟩ := ctx
  simp only [simOneSlot]
  cases dfSelect (buildCountDf cc slot ih iph tot w lags) cc with
  | none => rfl
  | some vc =>
    dsimp only
    cases dfSelect (buildMultiDf mc slot (clampRound (cm vc)) q ih iph tot w) mc with
    | none => rfl
    | some vm => rfl



/-! ### Claims -/

/-- C1: every emitted `predicted_arrivals`, `predicted_queue` and
`predicted_wait_minutes` is the raw real-valued prediction rounded to the
nearest integer and clamped at 0 (so −2.4 yields 0 and 7.6 yields 8), all
three are non-negative, and the clamped values — not the raw ones — are what
is stored in the rolling state and placed into the queue/wait feature
vector. -/
theorem C1_round_clamp_nonneg :
    (∀ q : ℚ, 0 ≤ clampRound q) ∧
    clampRound (-2.4) = 0 ∧ clampRound 7.6 = 8 ∧
    (∀ (ctx : SimCtx) (slot : Nat × Nat) (lags : List Int) (q : Int)
        (out : SlotResult × List Int × Int),
      simOneSlot ctx slot lags q = some out →
      (0 ≤ out.1.reception ∧ 0 ≤ out.1.queue_pred ∧ 0 ≤ out.1.wait_pred) ∧
      out.2.1 = out.1.reception :: lags.take 2 ∧
      out.2.2 = out.1.queue_pred ∧
      ∃ vc, dfSelect (buildCountDf ctx.count_cols slot ctx.is_holiday ctx.is_prev_holiday
          ctx.total_patients ctx.weather lags) ctx.count_cols = some vc ∧
        out.1.reception = clampRound (ctx.count_model vc) ∧
        ∃ vm, dfSelect (buildMultiDf ctx.multi_cols slot (clampRound (ctx.count_model vc)) q
            ctx.is_holiday ctx.is_prev_holiday ctx.total_patients ctx.weather) ctx.multi_cols
            = some vm ∧
          out.1.queue_pred = clampRound (ctx.queue_model vm) ∧
          out.1.wait_pred = clampRound (ctx.wait_model vm)) := by
  refine ⟨clampRound_nonneg, clampRound_neg_example, clampRound_pos_example, ?_⟩
  intro ctx slot lags q out h
  obtain ⟨-, h2, h3, h4, h5, h6, hex⟩ := simOneSlot_spec ctx slot lags q out h
  exact ⟨⟨h4, h5, h6⟩, h2, h3, hex⟩

/-- Witness for C1 on a concrete run input. -/
theorem C1_round_clamp_nonneg_witness :
    0 ≤ ((simOneSlot ctxA (8, 0) [0, 0, 0] 0).getD default).1.reception ∧
    ((simOneSlot ctxA (8, 0) [0, 0, 0] 0).getD default).2.2 =
      ((simOneSlot ctxA (8, 0) [0, 0, 0] 0).getD default).1.queue_pred :=
  ⟨(C1_round_clamp_nonneg.2.2.2 ctxA (8, 0) [0, 0, 0] 0
      ((simOneSlot ctxA (8, 0) [0, 0, 0] 0).getD default) rfl).1.1,
   (C1_round_clamp_nonneg.2.2.2 ctxA (8, 0) [0, 0, 0] 0
      ((simOneSlot ctxA (8, 0) [0, 0, 0] 0).getD default) rfl).2.2.1⟩

/-- C2: the `queue_at_start_of_slot` feature of the queue/wait vector is the
carried queue value by identity; after the head slot the run resumes with
exactly the head row's `predicted_queue` as the carry; and the whole run
starts with carry 0. -/
theorem C2_queue_carry_identity :
    (∀ (cols : List String) (slot : Nat × Nat) (reception q : Int) (ih iph : Bool)
        (tot : Int) (w : String),
      dfGet (buildMultiDf cols slot reception q ih iph tot w) "queue_at_start_of_slot"
        = some q) ∧
    (∀ (ctx : SimCtx) (s : Nat × Nat) (rest : List (Nat × Nat)) (lags : List Int)
        (q : Int) (r : SlotResult) (rest' : List SlotResult),
      simRun ctx (s :: rest) lags q = some (r :: rest') →
      simRun ctx rest (r.reception :: lags.take 2) r.queue_pred = some rest') ∧
    (∀ ctx : SimCtx, simulate ctx = simRun ctx timeSlots [0, 0, 0] 0) :=
  ⟨buildMultiDf_queue,
   fun ctx s rest lags q r rest' h => (simRun_cons_spec ctx s rest lags q r rest' h).2,
   fun _ => rfl⟩

/-- Witness for C2 on a concrete two-slot run. -/
theorem C2_queue_carry_identity_witness :
    simRun ctxA [(8, 30)]
        (((simRun ctxA [(8, 0), (8, 30)] [0, 0, 0] 0).getD []).headI.reception
          :: ([0, 0, 0] : List Int).take 2)
        ((simRun ctxA [(8, 0), (8, 30)] [0, 0, 0] 0).getD []).headI.queue_pred
      = some ((simRun ctxA [(8, 0), (8, 30)] [0, 0, 0] 0).getD []).tail :=
  C2_queue_carry_identity.2.1 ctxA (8, 0) [(8, 30)] [0, 0, 0] 0
    ((simRun ctxA [(8, 0), (8, 30)] [0, 0, 0] 0).getD []).headI
    ((simRun ctxA [(8, 0), (8, 30)] [0, 0, 0] 0).getD []).tail rfl

/-- C3: every run's report has exactly 21 rows, labelled 08:00 through 18:00
in 30-minute steps, pairwise distinct, and the slot sequence is pairwise
strictly increasing in time. -/
theorem C3_report_shape :
    (∀ (ctx : SimCtx) (report : List SlotResult), simulate ctx = some report →
      report.length = 21 ∧
      report.map (fun r => r.time_label) =
        ["08:00", "08:30", "09:00", "09:30", "10:00", "10:30", "11:00", "11:30",
         "12:00", "12:30", "13:00", "13:30", "14:00", "14:30", "15:00", "15:30",
         "16:00", "16:30", "17:00", "17:30", "18:00"] ∧
      (report.map (fun r => r.time_label)).Nodup) ∧
    List.Pairwise (· < ·) (timeSlots.map (fun s => 60 * s.1 + s.2)) := by
  constructor
  · intro ctx report h
    have hl := simRun_labels ctx timeSlots [0, 0, 0] 0 report h
    have hmap : timeSlots.map timeLabel =
        ["08:00", "08:30", "09:00", "09:30", "10:00", "10:30", "11:00", "11:30",
         "12:00", "12:30", "13:00", "13:30", "14:00", "14:30", "15:00", "15:30",
         "16:00", "16:30", "17:00", "17:30", "18:00"] := by decide
    refine ⟨?_, ?_, ?_⟩
    · have hlen := congrArg List.length hl
      simp only [List.length_map] at hlen
      exact hlen.trans (by decide)
    · rw [hl, hmap]
    · rw [hl, hmap]; decide
  · decide

/-- Witness for C3 on a concrete run input. -/
theorem C3_report_shape_witness :
    ((simulate ctxA).getD []).length = 21 :=
  (C3_report_shape.1 ctxA ((simulate ctxA).getD []) rfl).1

/-- C4: the rolling arrival window starts as `[0,0,0]` (3 entries) and each
slot replaces it by the clamped arrival count followed by the previous first
two entries, preserving length 3. -/
theorem C4_rolling_window :
    ([0, 0, 0] : List Int).length = 3 ∧
    (∀ ctx : SimCtx, simulate ctx = simRun ctx timeSlots [0, 0, 0] 0) ∧
    (∀ (ctx : SimCtx) (slot : Nat × Nat) (lags : List Int) (q : Int)
        (out : SlotResult × List Int × Int),
      simOneSlot ctx slot lags q = some out →
      out.2.1 = out.1.reception :: lags.take 2 ∧
      (lags.length = 3 → out.2.1.length = 3)) := by
  refine ⟨rfl, fun _ => rfl, ?_⟩
  intro ctx slot lags q out h
  obtain ⟨-, h2, -⟩ := simOneSlot_spec ctx slot lags q out h
  refine ⟨h2, ?_⟩
  intro hl
  rw [h2]
  simp [hl]

/-- Witness for C4 on a concrete slot. -/
theorem C4_rolling_window_witness :
    ((simOneSlot ctxA (8, 0) [0, 0, 0] 0).getD default).2.1.length = 3 :=
  (C4_rolling_window.2.2 ctxA (8, 0) [0, 0, 0] 0
      ((simOneSlot ctxA (8, 0) [0, 0, 0] 0).getD default) rfl).2 rfl

/-- C5 counterexample: a schema lacking both `hour` and `minute` is tolerated —
the build succeeds and simply omits them, contradicting the claim that their
absence is not tolerated by the lenient-schema policy. -/
theorem C5_counterexample :
    dfSelect (buildCountDf ["is_holiday"] (8, 0) true false 100 "晴" [])
      ["is_holiday"] = some [1] := by decide

/-- C5 (amended): building either feature vector never fails, whatever the
schema — every assigned field absent from the schema (including `hour` and
`minute`) is silently dropped at selection — and every schema field the
builder does not assign keeps its initial 0. -/
theorem C5_lenient_schema :
    (∀ (cols : List String) (slot : Nat × Nat) (ih iph : Bool) (tot : Int)
        (w : String) (lags : List Int),
      (dfSelect (buildCountDf cols slot ih iph tot w lags) cols).isSome = true) ∧
    (∀ (cols : List String) (slot : Nat × Nat) (ih iph : Bool) (tot : Int)
        (w : String) (lags : List Int) (c : String), c ∈ cols →
      c ∉ countAssignedCols lags →
      dfGet (buildCountDf cols slot ih iph tot w lags) c = some 0) ∧
    (∀ (cols : List String) (slot : Nat × Nat) (reception q : Int) (ih iph : Bool)
        (tot : Int) (w : String),
      (dfSelect (buildMultiDf cols slot reception q ih iph tot w) cols).isSome = true) ∧
    (∀ (cols : List String) (slot : Nat × Nat) (reception q : Int) (ih iph : Bool)
        (tot : Int) (w : String) (c : String), c ∈ cols → c ∉ multiAssignedCols →
      dfGet (buildMultiDf cols slot reception q ih iph tot w) c = some 0) :=
  ⟨fun cols slot ih iph tot w lags => buildCountDf_select_isSome cols slot ih iph tot w lags,
   fun cols slot ih iph tot w lags c hc hn =>
     buildCountDf_unassigned cols slot ih iph tot w lags c hc hn,
   fun cols slot reception q ih iph tot w =>
     buildMultiDf_select_isSome cols slot reception q ih iph tot w,
   fun cols slot reception q ih iph tot w c hc hn =>
     buildMultiDf_unassigned cols slot reception q ih iph tot w c hc hn⟩

/-- Witness for C5 on a concrete schema with an unassigned field. -/
theorem C5_lenient_schema_witness :
    dfGet (buildCountDf ["foo"] (8, 0) false false 0 "晴" []) "foo" = some 0 :=
  C5_lenient_schema.2.1 ["foo"] (8, 0) false false 0 "晴" [] "foo"
    (by decide) (by decide)



/-- C6: the non-working-day classification is exactly "public holiday, or
Saturday/Sunday, or December 29-31, or January 1-3"; December 30 and
January 2 are non-working whatever the weekday, and a Wednesday outside the
holiday table and the year-end window is working. -/
theorem C6_calendar_classification :
    (∀ (hol : PyDate → Bool) (d : PyDate),
      isNonWorkingDay hol d = true ↔
        hol d = true ∨ d.weekday.val = 5 ∨ d.weekday.val = 6 ∨
        (d.month = 12 ∧ 29 ≤ d.day) ∨ (d.month = 1 ∧ d.day ≤ 3)) ∧
    (∀ (hol : PyDate → Bool) (wd : Fin 7), isNonWorkingDay hol ⟨12, 30, wd⟩ = true) ∧
    (∀ (hol : PyDate → Bool) (wd : Fin 7), isNonWorkingDay hol ⟨1, 2, wd⟩ = true) ∧
    (∀ (hol : PyDate → Bool) (d : PyDate), d.weekday.val = 2 → hol d = false →
      ¬(d.month = 12 ∧ 29 ≤ d.day) → ¬(d.month = 1 ∧ d.day ≤ 3) →
      isNonWorkingDay hol d = false) := by
  have hiff : ∀ (hol : PyDate → Bool) (d : PyDate),
      isNonWorkingDay hol d = true ↔
        hol d = true ∨ d.weekday.val = 5 ∨ d.weekday.val = 6 ∨
        (d.month = 12 ∧ 29 ≤ d.day) ∨ (d.month = 1 ∧ d.day ≤ 3) := by
    intro hol d
    have hwd := d.weekday.isLt
    unfold isNonWorkingDay
    simp only [Bool.or_eq_true, Bool.and_eq_true, decide_eq_true_eq]
    constructor
    · rintro (((h | h) | h) | h)
      · exact Or.inl h
      · have : d.weekday.val = 5 ∨ d.weekday.val = 6 := by omega
        rcases this with h' | h'
        · exact Or.inr (Or.inl h')
        · exact Or.inr (Or.inr (Or.inl h'))
      · exact Or.inr (Or.inr (Or.inr (Or.inl h)))
      · exact Or.inr (Or.inr (Or.inr (Or.inr h)))
    · rintro (h | h | h | h | h)
      · exact Or.inl (Or.inl (Or.inl h))
      · exact Or.inl (Or.inl (Or.inr (by omega)))
      · exact Or.inl (Or.inl (Or.inr (by omega)))
      · exact Or.inl (Or.inr h)
      · exact Or.inr h
  refine ⟨hiff, ?_, ?_, ?_⟩
  · intro hol wd
    rw [hiff]
    exact Or.inr (Or.inr (Or.inr (Or.inl ⟨rfl, (by decide : 29 ≤ 30)⟩)))
  · intro hol wd
    rw [hiff]
    exact Or.inr (Or.inr (Or.inr (Or.inr ⟨rfl, (by decide : 2 ≤ 3)⟩)))
  · intro hol d hwed hhol hdec hjan
    rw [Bool.eq_false_iff]
    intro htrue
    rcases (hiff hol d).1 htrue with h | h | h | h | h
    · rw [hhol] at h; exact Bool.false_ne_true h
    · omega
    · omega
    · exact hdec h
    · exact hjan h

/-- Witness for C6: a plain mid-June Wednesday with an empty holiday table is
classified as a working day. -/
theorem C6_calendar_classification_witness :
    isNonWorkingDay (fun _ => false) ⟨6, 15, 2⟩ = false :=
  C6_calendar_classification.2.2.2 (fun _ => false) ⟨6, 15, 2⟩ rfl rfl
    (by decide) (by decide)

/-- C7: in both feature vectors the rain flag is 1 exactly for the rain
weather value and the snow flag is 1 exactly for the snow value (substring
test on the weather string); all other offered weather values set both flags
to 0. -/
theorem C7_weather_flags :
    ∀ (w : Weather) (cols : List String) (slot : Nat × Nat) (ih iph : Bool)
      (tot : Int) (lags : List Int) (reception q : Int),
      dfGet (buildCountDf cols slot ih iph tot (weatherStr w) lags) "雨フラグ" =
        some (if w = Weather.ame then 1 else 0) ∧
      dfGet (buildCountDf cols slot ih iph tot (weatherStr w) lags) "雪フラグ" =
        some (if w = Weather.yuki then 1 else 0) ∧
      dfGet (buildMultiDf cols slot reception q ih iph tot (weatherStr w)) "雨フラグ" =
        some (if w = Weather.ame then 1 else 0) ∧
      dfGet (buildMultiDf cols slot reception q ih iph tot (weatherStr w)) "雪フラグ" =
        some (if w = Weather.yuki then 1 else 0) := by
  intro w cols slot ih iph tot lags reception q
  rw [buildCountDf_rain, buildCountDf_snow, buildMultiDf_rain, buildMultiDf_snow]
  cases w <;> exact ⟨rfl, rfl, rfl, rfl⟩

/-- C8: the vector handed to a predictor lists exactly the schema's fields in
the schema's order — position `i` holds the value of the field named at
position `i` — and the arrival prediction is computed on the vector selected
through `count_cols`. -/
theorem C8_schema_order :
    (∀ (cols : List String) (df : Df) (v : List Int), dfSelect df cols = some v →
      v.length = cols.length ∧
      ∀ (i : Nat) (h : i < cols.length) (h' : i < v.length),
        dfGet df (cols.get ⟨i, h⟩) = some (v.get ⟨i, h'⟩)) ∧
    (∀ (ctx : SimCtx) (slot : Nat × Nat) (lags : List Int) (q : Int)
        (out : SlotResult × List Int × Int),
      simOneSlot ctx slot lags q = some out →
      ∃ vc, dfSelect (buildCountDf ctx.count_cols slot ctx.is_holiday ctx.is_prev_holiday
          ctx.total_patients ctx.weather lags) ctx.count_cols = some vc ∧
        out.1.reception = clampRound (ctx.count_model vc)) := by
  constructor
  · exact fun cols df v h => dfSelect_spec cols df v h
  · intro ctx slot lags q out h
    obtain ⟨-, -, -, -, -, -, vc, hvc, hrec, -⟩ := simOneSlot_spec ctx slot lags q out h
    exact ⟨vc, hvc, hrec⟩

/-- Witness for C8 on a concrete one-field frame and schema. -/
theorem C8_schema_order_witness :
    dfGet [("a", (5 : Int))] (["a"].get ⟨0, by decide⟩) =
      some ([(5 : Int)].get ⟨0, by decide⟩) :=
  (C8_schema_order.1 ["a"] [("a", (5 : Int))] [5] rfl).2 0 (by decide) (by decide)

/-- C9: two runs on equal dates, volumes, weather and schemas, with
predictors that agree as functions on every vector, produce identical
reports. -/
theorem C9_determinism (ctx₁ ctx₂ : SimCtx)
    (h1 : ctx₁.count_cols = ctx₂.count_cols) (h2 : ctx₁.multi_cols = ctx₂.multi_cols)
    (h3 : ctx₁.is_holiday = ctx₂.is_holiday)
    (h4 : ctx₁.is_prev_holiday = ctx₂.is_prev_holiday)
    (h5 : ctx₁.total_patients = ctx₂.total_patients) (h6 : ctx₁.weather = ctx₂.weather)
    (hc : ∀ v, ctx₁.count_model v = ctx₂.count_model v)
    (hq : ∀ v, ctx₁.queue_model v = ctx₂.queue_model v)
    (hw : ∀ v, ctx₁.wait_model v = ctx₂.wait_model v) :
    simulate ctx₁ = simulate ctx₂ := by
  have : ctx₁ = ctx₂ :=
    SimCtx.ext h1 h2 h3 h4 h5 h6 (funext hc) (funext hq) (funext hw)
  rw [this]

/-- Witness for C9 on two concretely different but extensionally equal
run inputs. -/
theorem C9_determinism_witness : simulate ctxA = simulate ctxB :=
  C9_determinism ctxA ctxB rfl rfl rfl rfl rfl rfl (fun _ => rfl) (fun _ => rfl)
    (fun _ => (add_zero (0 : ℚ)).symm)

/-- C10: changing only the wait-time predictor never changes the label,
arrival or queue sequence of the report (nor which runs succeed): the
wait-time prediction is recorded but never feeds the rolling state or any
later feature vector. -/
theorem C10_wait_noninterference (ctx : SimCtx) (w₁ w₂ : List Int → ℚ)
    (slots : List (Nat × Nat)) (lags : List Int) (q : Int) :
    Option.map (List.map slotProj) (simRun { ctx with wait_model := w₁ } slots lags q) =
      Option.map (List.map slotProj) (simRun { ctx with wait_model := w₂ } slots lags q) := by
  induction slots generalizing lags q with
  | nil => rfl
  | cons s rest ihs =>
    have hone := simOneSlot_wait_swap ctx w₁ w₂ s lags q
    simp only [simRun]
    cases h₁ : simOneSlot { ctx with wait_model := w₁ } s lags q with
    | none =>
      rw [h₁] at hone
      cases h₂ : simOneSlot { ctx with wait_model := w₂ } s lags q with
      | none => rfl
      | some o₂ => rw [h₂] at hone; simp at hone
    | some o₁ =>
      rw [h₁] at hone
      cases h₂ : simOneSlot { ctx with wait_model := w₂ } s lags q with
      | none => rw [h₂] at hone; simp at hone
      | some o₂ =>
        rw [h₂] at hone
        simp only [Option.map_some', Option.some.injEq, Prod.mk.injEq] at hone
        obtain ⟨hproj, hst⟩ := hone
        dsimp only
        rw [hst]
        have ihr := ihs o₂.2.1 o₂.2.2
        cases hr₁ : simRun { ctx with wait_model := w₁ } rest o₂.2.1 o₂.2.2 with
        | none =>
          rw [hr₁] at ihr
          cases hr₂ : simRun { ctx with wait_model := w₂ } rest o₂.2.1 o₂.2.2 with
          | none => rfl
          | some rs₂ => rw [hr₂] at ihr; simp at ihr
        | some rs₁ =>
          rw [hr₁] at ihr
          cases hr₂ : simRun { ctx with wait_model := w₂ } rest o₂.2.1 o₂.2.2 with
          | none => rw [hr₂] at ihr; simp at ihr
          | some rs₂ =>
            rw [hr₂] at ihr
            simp only [Option.map_some', Option.some.injEq] at ihr
            simp only [Option.map_some', Option.some.injEq, List.map_cons, ihr, hproj]


end HospitalApp
